import Mathlib

/-!
Shallow embedding of the Therabot chat session controller
(src/frontend/src/components/ChatBox.jsx).

The component is a React function component; its semantics are modelled
explicitly:

* Component state is the record `ChatState`, mirroring the four `useState`
  hooks (`input`, `messages`, `isVoiceEnabled`, `isListening`) together
  with the speech-recognition `transcript` exposed by
  `useSpeechRecognition`.
* An event handler is a closure over the state of the render that created
  it (its snapshot).  Calls to the state setters do not change that
  snapshot; they queue updates (`Upd`) that are applied in order to the
  committed state (`commit`).  In particular, `setInput(transcript)`
  followed by a direct call of `handleSend` leaves `handleSend` reading
  the snapshot's old `input`, not the transcript.
* `setMessages(prev => [...prev, botMessage])` is a functional update
  (`Upd.appendMessage`), applied to the committed state at the time the
  awaited response resolves; `setMessages(array)` is an absolute
  replacement (`Upd.setMessagesTo`).
* The remote dialogue service is an oracle `Option String`: `some reply`
  models a successful JSON response `\x7b reply \x7d`, `none` models a
  transport failure or non-success status (the `catch` branch).
* Speech synthesis calls (`speak`) are recorded as the list of spoken
  texts; speech-capture start/stop calls are recorded as booleans.
-/

/-- The `sender` field of a chat message: `'user'` or `'bot'`. -/
inductive Sender
  | user
  | bot
deriving DecidableEq, Repr

/-- A chat message as built in `ChatBox.jsx`: `\x7b text, sender \x7d`. -/
structure Message where
  text : String
  sender : Sender
deriving DecidableEq, Repr

/-- The component state: the four `useState` hooks plus the
speech-recognition transcript buffer from `useSpeechRecognition`. -/
structure ChatState where
  input : String
  messages : List Message
  isVoiceEnabled : Bool
  isListening : Bool
  transcript : String
deriving DecidableEq, Repr

/-- A queued state update, one per React setter call appearing in the
component (plus `resetTranscript` from the speech-recognition hook). -/
inductive Upd
  | setInput (v : String)
  | setMessagesTo (v : List Message)
  | appendMessage (m : Message)
  | setIsVoiceEnabled (b : Bool)
  | setIsListening (b : Bool)
  | resetTranscript
deriving DecidableEq, Repr

/-- Apply one queued update to the committed state. -/
def applyUpd (s : ChatState) : Upd → ChatState
  | .setInput v => { s with input := v }
  | .setMessagesTo v => { s with messages := v }
  | .appendMessage m => { s with messages := s.messages ++ [m] }
  | .setIsVoiceEnabled b => { s with isVoiceEnabled := b }
  | .setIsListening b => { s with isListening := b }
  | .resetTranscript => { s with transcript := "" }

/-- Commit a batch of queued updates in order (React batches the setter
calls of one synchronous run and applies them in call order). -/
def commit (s : ChatState) (us : List Upd) : ChatState :=
  us.foldl applyUpd s

/-- Whitespace as removed by JavaScript's `String.prototype.trim`
(restricted to the ASCII whitespace characters relevant here). -/
def jsWhitespace (c : Char) : Bool :=
  c == ' ' || c == '\t' || c == '\n' || c == '\r'

/-- Drop leading whitespace characters. -/
def dropLeadingWs : List Char → List Char
  | [] => []
  | c :: cs => if jsWhitespace c then dropLeadingWs cs else c :: cs

/-- Remove leading and trailing whitespace from a character list. -/
def trimChars (cs : List Char) : List Char :=
  (dropLeadingWs (dropLeadingWs cs).reverse).reverse

/-- JavaScript's `input.trim()`: remove leading and trailing whitespace.
Defined over the character list so that it evaluates by kernel
reduction. -/
def trimString (s : String) : String :=
  String.mk (trimChars s.data)

/-- The synchronous part of `handleSend`, up to the `await axios.post`:
guard on `input.trim()` being truthy; if so, build the user message from
the snapshot's untrimmed `input`, replace `messages` with
`[...messages, userMessage]` (snapshot spread), clear the input, and issue
`POST /chat` with body `\x7b message: input \x7d`.  Returns the queued
updates and the request body when a request was issued. -/
def handleSendSync (snap : ChatState) : List Upd × Option String :=
  if trimString snap.input ≠ "" then
    ([Upd.setMessagesTo (snap.messages ++ [⟨snap.input, Sender.user⟩]),
      Upd.setInput ""],
     some snap.input)
  else ([], none)

/-- The continuation of `handleSend` after the `POST /chat` call resolves:
on success append the bot message with a functional update and speak it
when the snapshot's `isVoiceEnabled` holds; on failure only
`console.error`.  Returns the queued updates and the spoken texts. -/
def handleSendResolve (snap : ChatState) : Option String → List Upd × List String
  | some r =>
      ([Upd.appendMessage ⟨r, Sender.bot⟩],
       if snap.isVoiceEnabled then [r] else [])
  | none => ([], [])

/-- The continuation of `fetchInitialMessage` after the `GET /start_chat`
call resolves: on success `setMessages([botMessage])` replaces the whole
message list with the single greeting and speaks it when the snapshot's
`isVoiceEnabled` holds; on failure only `console.error`. -/
def fetchInitialResolve (snap : ChatState) : Option String → List Upd × List String
  | some r =>
      ([Upd.setMessagesTo [⟨r, Sender.bot⟩]],
       if snap.isVoiceEnabled then [r] else [])
  | none => ([], [])

/-- The `toggleVoice` handler: `setIsVoiceEnabled(!isVoiceEnabled)`. -/
def toggleVoice (snap : ChatState) : List Upd :=
  [Upd.setIsVoiceEnabled (!snap.isVoiceEnabled)]

/-- The synchronous part of `handleRefresh`: `setMessages([])`,
`resetTranscript()`; it then invokes `fetchInitialMessage()`. -/
def handleRefreshSync (_snap : ChatState) : List Upd :=
  [Upd.setMessagesTo [], Upd.resetTranscript]

/-- The synchronous part of `handleVoiceInput`.  While listening:
`stopListening()` (`setIsListening(false)` plus the external stop call),
`setInput(transcript)`, then a direct call of `handleSend`, which still
reads the snapshot.  Otherwise `startListening()`: `resetTranscript()`,
`setIsListening(true)`, and the external `startListening` call.  Returns
the queued updates, the `POST /chat` body when one was issued, and whether
`SpeechRecognition.startListening` was called. -/
def handleVoiceInputSync (snap : ChatState) : List Upd × Option String × Bool :=
  if snap.isListening then
    let sendPart := handleSendSync snap
    ([Upd.setIsListening false, Upd.setInput snap.transcript] ++ sendPart.1,
     sendPart.2, false)
  else
    ([Upd.resetTranscript, Upd.setIsListening true], none, true)

/-- The input field's `onChange` handler: `setInput(e.target.value)`. -/
def typeInput (s : ChatState) (v : String) : ChatState :=
  commit s [Upd.setInput v]

/-- One complete, uninterleaved resolution of `fetchInitialMessage` whose
closure snapshot is `s`, with the given `GET /start_chat` outcome.
Returns the new committed state and the spoken texts. -/
def fetchInitialStep (s : ChatState) (outcome : Option String) : ChatState × List String :=
  let res := fetchInitialResolve s outcome
  (commit s res.1, res.2)

/-- One complete, uninterleaved run of `handleSend` from state `s` with
the given `POST /chat` outcome: commit the synchronous updates, then, when
a request was issued, commit the resolution against the intermediate
state.  Returns the final state, the request body, and the spoken texts. -/
def sendStep (s : ChatState) (outcome : Option String) :
    ChatState × Option String × List String :=
  let syncPart := handleSendSync s
  let s1 := commit s syncPart.1
  match syncPart.2 with
  | none => (s1, none, [])
  | some req =>
      let res := handleSendResolve s outcome
      (commit s1 res.1, some req, res.2)

/-- One complete refresh press: commit `handleRefreshSync`, then resolve
the `fetchInitialMessage` call it makes (whose closure snapshot is the
pressing render's state `s`). -/
def refreshStep (s : ChatState) (outcome : Option String) : ChatState × List String :=
  let s1 := commit s (handleRefreshSync s)
  let res := fetchInitialResolve s outcome
  (commit s1 res.1, res.2)

/-- One complete voice-output toggle press: commit the flipped flag; the
`useEffect` with dependency list `[isVoiceEnabled]` then re-runs
`fetchInitialMessage` — its closure is created by the new render, so its
snapshot is the post-toggle state. -/
def toggleVoiceStep (s : ChatState) (outcome : Option String) : ChatState × List String :=
  let s1 := commit s (toggleVoice s)
  let res := fetchInitialResolve s1 outcome
  (commit s1 res.1, res.2)

/-- One complete voice-input button press with the given `POST /chat`
outcome.  Returns the final state, the request body when one was issued,
the spoken texts, and whether a speech-capture start call was made. -/
def voicePressStep (s : ChatState) (outcome : Option String) :
    ChatState × Option String × List String × Bool :=
  let syncPart := handleVoiceInputSync s
  let s1 := commit s syncPart.1
  match syncPart.2.1 with
  | none => (s1, none, [], syncPart.2.2)
  | some req =>
      let res := handleSendResolve s outcome
      (commit s1 res.1, some req, res.2, syncPart.2.2)

/-- One complete successful turn: the user types `t` into the input field
and presses Send, and the service replies `r`. -/
def turnStep (s : ChatState) (t r : String) : ChatState :=
  (sendStep (typeInput s t) (some r)).1

/-- Run a sequence of successful turns, each given as (typed text, reply). -/
def runTurns (s : ChatState) : List (String × String) → ChatState
  | [] => s
  | p :: ps => runTurns (turnStep s p.1 p.2) ps

/-- The messages a list of successful turns contributes to the transcript:
for each turn, the user message then the bot reply. -/
def turnMessages : List (String × String) → List Message
  | [] => []
  | p :: ps => ⟨p.1, Sender.user⟩ :: ⟨p.2, Sender.bot⟩ :: turnMessages ps

/-- Number of messages with the given sender. -/
def countSender : List Message → Sender → Nat
  | [], _ => 0
  | m :: ms, x => (if m.sender = x then 1 else 0) + countSender ms x

/-- The sender pattern of `n` turns: user, bot, user, bot, ... -/
def altUB : Nat → List Sender
  | 0 => []
  | n + 1 => Sender.user :: Sender.bot :: altUB n

/-- The component together with its outstanding `POST /chat` requests.
Each outstanding request carries the snapshot of the render whose
`handleSend` closure issued it (that closure's continuation reads the
snapshot when the response arrives). -/
structure Sys where
  st : ChatState
  outstanding : List ChatState
deriving DecidableEq, Repr

/-- The user types `v` into the input field while requests may be in
flight. -/
def stepType (y : Sys) (v : String) : Sys :=
  { y with st := typeInput y.st v }

/-- The user presses Send: the synchronous phase of `handleSend` runs
against the current committed state; when a request is issued it joins the
outstanding requests. -/
def stepSubmit (y : Sys) : Sys :=
  let res := handleSendSync y.st
  { st := commit y.st res.1,
    outstanding := y.outstanding ++ (match res.2 with | some _ => [y.st] | none => []) }

/-- The oldest outstanding request resolves with the given outcome: its
closure's continuation runs against the current committed state. -/
def stepResolve (y : Sys) (outcome : Option String) : Sys :=
  match y.outstanding with
  | [] => y
  | snap :: rest =>
      { st := commit y.st (handleSendResolve snap outcome).1, outstanding := rest }

/-- The chat user interface as rendered by the component when speech
recognition is supported: the message list, the controlled input field,
and the four buttons (Send, Refresh, voice input, voice output). -/
structure ChatView where
  messageList : List Message
  inputValue : String
  hasSendButton : Bool
  hasRefreshButton : Bool
  hasVoiceInputButton : Bool
  hasVoiceOutputButton : Bool
deriving DecidableEq, Repr

/-- What the component returns: when
`SpeechRecognition.browserSupportsSpeechRecognition()` is false it returns
the static guidance markup before any chat markup or voice handler is
reached; otherwise the chat interface. -/
inductive View
  | unsupportedNotice
  | chat (v : ChatView)
deriving DecidableEq, Repr

/-- The component's render as a function of the support flag and state. -/
def render (supported : Bool) (s : ChatState) : View :=
  if supported then
    View.chat ⟨s.messages, s.input, true, true, true, true⟩
  else View.unsupportedNotice

/-- Whether the rendered view contains the conversation interface
(message list, input form, Send button). -/
def viewExposesConversation : View → Bool
  | View.chat _ => true
  | View.unsupportedNotice => false

/-- Whether the rendered view contains any voice control. -/
def viewExposesVoiceControls : View → Bool
  | View.chat v => v.hasVoiceInputButton || v.hasVoiceOutputButton
  | View.unsupportedNotice => false

/-- A voice-input button press can only reach `handleVoiceInput` through
the rendered view; when the unsupported notice is rendered there is no
such button, so the press is impossible and nothing happens — in
particular no speech-capture call is made. -/
def voiceButtonPress (supported : Bool) (s : ChatState) (outcome : Option String) :
    ChatState × Option String × List String × Bool :=
  match render supported s with
  | View.chat _ => voicePressStep s outcome
  | View.unsupportedNotice => (s, none, [], false)

theorem handleSendSync_pos (s : ChatState) (h : trimString s.input ≠ "") :
    handleSendSync s =
      ([Upd.setMessagesTo (s.messages ++ [⟨s.input, Sender.user⟩]), Upd.setInput ""],
       some s.input) := by
  simp [handleSendSync, h]

theorem handleSendSync_neg (s : ChatState) (h : trimString s.input = "") :
    handleSendSync s = ([], none) := by
  simp [handleSendSync, h]

theorem sendStep_success (s : ChatState) (r : String) (h : trimString s.input ≠ "") :
    sendStep s (some r) =
      ({ s with input := "",
                messages := s.messages ++ [⟨s.input, Sender.user⟩, ⟨r, Sender.bot⟩] },
       some s.input, if s.isVoiceEnabled then [r] else []) := by
  simp [sendStep, handleSendSync_pos s h, handleSendResolve, commit, applyUpd]

theorem sendStep_failure (s : ChatState) (h : trimString s.input ≠ "") :
    sendStep s none =
      ({ s with input := "", messages := s.messages ++ [⟨s.input, Sender.user⟩] },
       some s.input, []) := by
  simp [sendStep, handleSendSync_pos s h, handleSendResolve, commit, applyUpd]

theorem countSender_append (a b : List Message) (x : Sender) :
    countSender (a ++ b) x = countSender a x + countSender b x := by
  induction a with
  | nil => simp [countSender]
  | cons m ms ih => simp [countSender, ih, Nat.add_assoc]

/-- C5: submitting an input that is empty after trimming is a no-op — the
state is unchanged, no `POST /chat` request is issued and nothing is
spoken, whatever the service would have answered. -/
theorem whitespace_submit_noop (s : ChatState) (outcome : Option String)
    (h : trimString s.input = "") :
    sendStep s outcome = (s, none, []) := by
  simp [sendStep, handleSendSync_neg s h, commit]

/-- Witness for C5 at a concrete whitespace-only input. -/
theorem whitespace_submit_noop_witness :
    sendStep ⟨"   ", [⟨"greet", Sender.bot⟩], false, false, ""⟩ (some "reply")
      = (⟨"   ", [⟨"greet", Sender.bot⟩], false, false, ""⟩, none, []) :=
  whitespace_submit_noop _ _ (by decide)

/-- C6: when the `POST /chat` request fails, the already-appended user
message (holding the submitted text) stays in the transcript, no bot
message is appended and nothing is spoken, and the resulting state still
accepts new input: typing any text that is non-empty after trimming and
pressing Send issues a request for it. -/
theorem failed_send_keeps_user_message (s : ChatState) (v : String)
    (h : trimString s.input ≠ "") (hv : trimString v ≠ "") :
    (sendStep s none).1
        = { s with input := "", messages := s.messages ++ [⟨s.input, Sender.user⟩] }
      ∧ countSender (sendStep s none).1.messages Sender.bot
        = countSender s.messages Sender.bot
      ∧ (sendStep s none).2.2 = []
      ∧ (handleSendSync (typeInput (sendStep s none).1 v)).2 = some v := by
  refine ⟨?_, ?_, ?_, ?_⟩
  · simp [sendStep_failure s h]
  · simp [sendStep_failure s h, countSender_append, countSender]
  · simp [sendStep_failure s h]
  · simp [typeInput, commit, applyUpd, handleSendSync, hv]

/-- Witness for C6 at a concrete failed turn. -/
theorem failed_send_keeps_user_message_witness :
    (sendStep ⟨"hello", [⟨"greet", Sender.bot⟩], false, false, ""⟩ none).1
        = ⟨"", [⟨"greet", Sender.bot⟩, ⟨"hello", Sender.user⟩], false, false, ""⟩
      ∧ countSender (sendStep ⟨"hello", [⟨"greet", Sender.bot⟩], false, false, ""⟩ none).1.messages
          Sender.bot
        = countSender [⟨"greet", Sender.bot⟩] Sender.bot
      ∧ (sendStep ⟨"hello", [⟨"greet", Sender.bot⟩], false, false, ""⟩ none).2.2 = []
      ∧ (handleSendSync (typeInput
            (sendStep ⟨"hello", [⟨"greet", Sender.bot⟩], false, false, ""⟩ none).1 "again")).2
        = some "again" :=
  failed_send_keeps_user_message _ "again" (by decide) (by decide)

/-- C7: pressing Refresh clears the transcript and the buffered voice
transcript and re-opens the session; after the subsequent
`GET /start_chat` succeeds the transcript holds exactly the one new bot
greeting, and when it fails the transcript stays empty — in either case
the voice transcript buffer is cleared. -/
theorem refresh_restarts_session (s : ChatState) (g : String) :
    (refreshStep s (some g)).1.messages = [⟨g, Sender.bot⟩]
      ∧ (refreshStep s (some g)).1.transcript = ""
      ∧ (refreshStep s none).1.messages = []
      ∧ (refreshStep s none).1.transcript = "" :=
  ⟨rfl, rfl, rfl, rfl⟩

/-- C9: whatever messages are displayed at the moment the
`GET /start_chat` response is applied, `setMessages([botMessage])`
replaces the whole transcript with the single new greeting. -/
theorem init_resolve_replaces_transcript (snap cur : ChatState) (g : String) :
    (commit cur (fetchInitialResolve snap (some g)).1).messages = [⟨g, Sender.bot⟩] :=
  rfl

/-- C10: for a submission that is non-empty after trimming, the request
body and the text of the appended user message are both the original,
untrimmed input. -/
theorem send_uses_untrimmed_input (s : ChatState) (h : trimString s.input ≠ "") :
    (handleSendSync s).2 = some s.input
      ∧ (commit s (handleSendSync s).1).messages
        = s.messages ++ [⟨s.input, Sender.user⟩] := by
  simp [handleSendSync_pos s h, commit, applyUpd]

/-- Witness for C10 at an input with surrounding whitespace: the stored
and transmitted text keeps the whitespace. -/
theorem send_uses_untrimmed_input_witness :
    (handleSendSync ⟨"  hi  ", [], false, false, ""⟩).2 = some "  hi  "
      ∧ (commit ⟨"  hi  ", [], false, false, ""⟩
            (handleSendSync ⟨"  hi  ", [], false, false, ""⟩).1).messages
        = [⟨"  hi  ", Sender.user⟩] :=
  send_uses_untrimmed_input _ (by decide)

/-- C2 counterexample: pressing the voice-output toggle in a state whose
transcript holds a greeting and a user message, with the re-triggered
initial fetch succeeding, does not leave the displayed messages
unchanged. -/
theorem voice_toggle_clears_transcript_cex :
    (toggleVoiceStep ⟨"", [⟨"greet", Sender.bot⟩, ⟨"hi", Sender.user⟩], false, false, ""⟩
        (some "greet2")).1.messages
      ≠ [⟨"greet", Sender.bot⟩, ⟨"hi", Sender.user⟩] := by
  decide

/-- C2 (amended): the `toggleVoice` handler itself only flips
`isVoiceEnabled` and does not touch the messages; but the `useEffect`
whose dependency list is `[isVoiceEnabled]` re-runs `fetchInitialMessage`
on every toggle, so a complete toggle press additionally re-issues
`GET /start_chat` and, when it succeeds, replaces the whole transcript
with the single new greeting (when it fails the messages survive). -/
theorem voice_toggle_restarts_session (s : ChatState) (g : String)
    (outcome : Option String) :
    (commit s (toggleVoice s)).isVoiceEnabled = !s.isVoiceEnabled
      ∧ (commit s (toggleVoice s)).messages = s.messages
      ∧ (toggleVoiceStep s outcome).1.isVoiceEnabled = !s.isVoiceEnabled
      ∧ (toggleVoiceStep s (some g)).1.messages = [⟨g, Sender.bot⟩]
      ∧ (toggleVoiceStep s none).1.messages = s.messages := by
  refine ⟨rfl, rfl, ?_, rfl, rfl⟩
  cases outcome <;> rfl

/-- C3: the code evaluated at the failing input.  The user stops voice
capture with the spoken transcript "I am stressed" while the input field
is empty; because `handleSend` is the same render's closure, it reads the
stale empty `input` rather than the transcript, so no user message is
appended, no request is issued, nothing is spoken, and the transcript text
merely lands in the input field — not the behaviour of a typed submission
of "I am stressed". -/
theorem voice_stop_submits_stale_input :
    voicePressStep ⟨"", [⟨"greet", Sender.bot⟩], false, true, "I am stressed"⟩ (some "reply")
      = (⟨"I am stressed", [⟨"greet", Sender.bot⟩], false, false, "I am stressed"⟩,
         none, [], false) := by
  decide

/-- C4 counterexample: starting from an idle state with one greeting, the
user types "a" and presses Send, then — while that request is still
outstanding — types "b" and presses Send again.  Nothing guards the second
submission: afterwards two requests are in flight and both user messages
sit in the transcript with no reply between them. -/
theorem concurrent_sends_cex :
    (stepSubmit (stepType (stepSubmit (stepType
        ⟨⟨"", [⟨"greet", Sender.bot⟩], false, false, ""⟩, []⟩ "a")) "b")).outstanding.length
      = 2
      ∧ (stepSubmit (stepType (stepSubmit (stepType
          ⟨⟨"", [⟨"greet", Sender.bot⟩], false, false, ""⟩, []⟩ "a")) "b")).st.messages
        = [⟨"greet", Sender.bot⟩, ⟨"a", Sender.user⟩, ⟨"b", Sender.user⟩] :=
  ⟨by decide, by decide⟩

/-- C4 (amended): the send path is guarded only by the trimmed
non-emptiness of the input, not by an outstanding request: whatever
requests are already in flight, pressing Send with an input that is
non-empty after trimming appends the user message and issues one more
request, so more than one request can be outstanding at once. -/
theorem send_has_no_inflight_guard (y : Sys) (h : trimString y.st.input ≠ "") :
    (stepSubmit y).outstanding.length = y.outstanding.length + 1
      ∧ (stepSubmit y).st.messages = y.st.messages ++ [⟨y.st.input, Sender.user⟩]
      ∧ (stepSubmit y).outstanding = y.outstanding ++ [y.st] := by
  refine ⟨?_, ?_, ?_⟩ <;> simp [stepSubmit, handleSendSync_pos y.st h, commit, applyUpd]

/-- Witness for C4 (amended): one request is already outstanding and a
second submission goes through, leaving two in flight. -/
theorem send_has_no_inflight_guard_witness :
    (stepSubmit ⟨⟨"b", [⟨"greet", Sender.bot⟩, ⟨"a", Sender.user⟩], false, false, ""⟩,
        [⟨"a", [⟨"greet", Sender.bot⟩], false, false, ""⟩]⟩).outstanding.length = 2
      ∧ (stepSubmit ⟨⟨"b", [⟨"greet", Sender.bot⟩, ⟨"a", Sender.user⟩], false, false, ""⟩,
          [⟨"a", [⟨"greet", Sender.bot⟩], false, false, ""⟩]⟩).st.messages
        = [⟨"greet", Sender.bot⟩, ⟨"a", Sender.user⟩, ⟨"b", Sender.user⟩]
      ∧ (stepSubmit ⟨⟨"b", [⟨"greet", Sender.bot⟩, ⟨"a", Sender.user⟩], false, false, ""⟩,
          [⟨"a", [⟨"greet", Sender.bot⟩], false, false, ""⟩]⟩).outstanding
        = [⟨"a", [⟨"greet", Sender.bot⟩], false, false, ""⟩,
           ⟨"b", [⟨"greet", Sender.bot⟩, ⟨"a", Sender.user⟩], false, false, ""⟩] :=
  send_has_no_inflight_guard _ (by decide)

/-- C8 counterexample: when speech recognition is unsupported the
component renders the static notice, which contains no conversation
interface — the chat does not keep working in a text-only mode. -/
theorem unsupported_mode_no_chat_cex :
    viewExposesConversation (render false ⟨"", [], false, false, ""⟩) = false :=
  rfl

/-- C8 (amended): when speech recognition is unsupported the component
returns the static guidance notice before any chat markup or handler is
built: no voice controls are exposed, but no conversation interface is
exposed either, and a voice-input press cannot happen, so no
speech-capture call is ever made. -/
theorem unsupported_renders_notice_only (s : ChatState) (outcome : Option String) :
    render false s = View.unsupportedNotice
      ∧ viewExposesVoiceControls (render false s) = false
      ∧ viewExposesConversation (render false s) = false
      ∧ voiceButtonPress false s outcome = (s, none, [], false) :=
  ⟨rfl, rfl, rfl, rfl⟩

theorem turnStep_eq (s : ChatState) (t r : String) (h : trimString t ≠ "") :
    turnStep s t r =
      { s with input := "",
               messages := s.messages ++ [⟨t, Sender.user⟩, ⟨r, Sender.bot⟩] } := by
  have h' : trimString (typeInput s t).input ≠ "" := h
  rw [turnStep, sendStep_success (typeInput s t) r h']
  rfl

theorem runTurns_messages (ts : List (String × String)) :
    ∀ s : ChatState, (∀ p ∈ ts, trimString p.1 ≠ "") →
      (runTurns s ts).messages = s.messages ++ turnMessages ts := by
  induction ts with
  | nil => intro s _; simp [runTurns, turnMessages]
  | cons p ps ih =>
      intro s h
      have hp : trimString p.1 ≠ "" := h p (List.mem_cons_self _ _)
      have hps : ∀ q ∈ ps, trimString q.1 ≠ "" := fun q hq => h q (List.mem_cons_of_mem _ hq)
      simp only [runTurns]
      rw [ih _ hps, turnStep_eq s p.1 p.2 hp]
      simp [turnMessages]

theorem countSender_turnMessages (ts : List (String × String)) :
    countSender (turnMessages ts) Sender.user = ts.length
      ∧ countSender (turnMessages ts) Sender.bot = ts.length := by
  induction ts with
  | nil => exact ⟨rfl, rfl⟩
  | cons p ps ih =>
      refine ⟨?_, ?_⟩ <;> (simp [turnMessages, countSender, ih.1, ih.2]; omega)

theorem turnMessages_map (ts : List (String × String)) :
    (turnMessages ts).map Message.sender = altUB ts.length := by
  induction ts with
  | nil => rfl
  | cons p ps ih => simp [turnMessages, altUB, ih]

/-- C1: after a successful initial fetch of the greeting `g` and a
sequence of successful turns whose typed texts are all non-empty after
trimming, the transcript is exactly the greeting followed by the turns'
user/bot message pairs: it holds `N` user messages and `N + 1` bot
messages (the extra one being the single leading greeting), and the
senders strictly alternate, bot greeting first. -/
theorem transcript_after_successful_turns (s : ChatState) (g : String)
    (ts : List (String × String)) (h : ∀ p ∈ ts, trimString p.1 ≠ "") :
    (runTurns (fetchInitialStep s (some g)).1 ts).messages
        = ⟨g, Sender.bot⟩ :: turnMessages ts
      ∧ countSender (runTurns (fetchInitialStep s (some g)).1 ts).messages Sender.user
        = ts.length
      ∧ countSender (runTurns (fetchInitialStep s (some g)).1 ts).messages Sender.bot
        = ts.length + 1
      ∧ (runTurns (fetchInitialStep s (some g)).1 ts).messages.map Message.sender
        = Sender.bot :: altUB ts.length := by
  have hm := runTurns_messages ts (fetchInitialStep s (some g)).1 h
  have hinit : (fetchInitialStep s (some g)).1.messages = [⟨g, Sender.bot⟩] := rfl
  rw [hinit] at hm
  refine ⟨?_, ?_, ?_, ?_⟩ <;> rw [hm] <;>
    simp [countSender, countSender_turnMessages ts |>.1, countSender_turnMessages ts |>.2,
      turnMessages_map, Nat.add_comm]

/-- Witness for C1: two successful turns after a successful greeting. -/
theorem transcript_after_successful_turns_witness :
    (runTurns (fetchInitialStep ⟨"", [], false, false, ""⟩ (some "Hello")).1
        [("a", "b"), ("c", "d")]).messages
        = ⟨"Hello", Sender.bot⟩ :: turnMessages [("a", "b"), ("c", "d")]
      ∧ countSender (runTurns (fetchInitialStep ⟨"", [], false, false, ""⟩ (some "Hello")).1
          [("a", "b"), ("c", "d")]).messages Sender.user = 2
      ∧ countSender (runTurns (fetchInitialStep ⟨"", [], false, false, ""⟩ (some "Hello")).1
          [("a", "b"), ("c", "d")]).messages Sender.bot = 3
      ∧ (runTurns (fetchInitialStep ⟨"", [], false, false, ""⟩ (some "Hello")).1
          [("a", "b"), ("c", "d")]).messages.map Message.sender
        = Sender.bot :: altUB 2 :=
  transcript_after_successful_turns _ "Hello" _ (by decide)
